/-
Verification of the `Room` entity of wechaty (src/user/room.ts).

The TypeScript class is shallowly embedded as pure Lean functions:

* The provider ("puppet") is modelled as a record of response oracles:
  each provider operation is a function from its arguments to an
  `Except String _` outcome, standing for a resolved / rejected promise.
* Each `Room` method that talks to the provider returns, next to its
  `Except` outcome, the list of provider calls it issued (its trace),
  so that "the provider is never invoked" style statements are
  expressible.
* JavaScript truthiness is modelled explicitly where the source relies
  on it (`if (text)`, `!query.topic`, `replyToList.length && ... || undefined`,
  `this.payload && this.payload.topic`): the empty string is falsy.
* The process-wide identity pool (`Room.load`) is modelled as an
  association list from id to an instance reference (a `Nat` allocation
  number standing for object identity), together with a fresh-reference
  counter.
-/
import Mathlib

namespace Wechaty

/-- Payload snapshot of a room, as cached by the provider
(`RoomPayload` in src/puppet/). -/
structure RoomPayload where
  topic : Option String
  memberIdList : List String
  ownerId : Option String
  announcement : Option String
deriving Repr, DecidableEq

/-- A topic matcher of a `RoomQueryFilter`: a plain string or a regular
expression (kept abstract as its pattern text). -/
inductive TopicMatcher where
  | ofString (s : String)
  | ofRegex (pattern : String)
deriving Repr, DecidableEq

/-- `RoomQueryFilter` from src/puppet/: an optional topic matcher. -/
structure RoomQueryFilter where
  topic : Option TopicMatcher
deriving Repr, DecidableEq

/-- JavaScript truthiness of `query.topic`: absent is falsy, and an
empty string matcher is falsy; a regex object is always truthy. -/
def TopicMatcher.truthy : Option TopicMatcher → Bool
  | none => false
  | some (.ofString s) => decide (s ≠ "")
  | some (.ofRegex _) => true

/-- JavaScript truthiness of an optional string (`this.payload.topic`,
`text`): present and non-empty. -/
def strTruthy : Option String → Bool
  | none => false
  | some s => decide (s ≠ "")

/-- A provider call issued by a `Room` method, recorded in traces. -/
inductive PuppetCall where
  | roomCreate (memberIds : List String) (topic : Option String)
  | roomSearch (query : RoomQueryFilter)
  | roomPayloadDirty (roomId : String)
  | roomPayload (roomId : String)
  | roomMemberList (roomId : String)
  | contactReady (contactId : String)
  | messageSendText (roomId : String) (contactId : Option String) (text : String)
  | messageSendFile (roomId : String) (file : String)
  | messageSendContact (roomId : String) (contactId : String)
  | roomTopic (roomId : String) (newTopic : String)
  | roomAnnounceRead (roomId : String)
  | roomAnnounceWrite (roomId : String) (text : String)
deriving Repr, DecidableEq

/-- The provider ("puppet") as a record of response oracles.  A field
`fooR` gives the outcome the provider would produce for the
corresponding call; `roomPayloadCache` is the synchronous payload cache
read used by the `payload` getter; `contactNameV` resolves a contact id
to its display name (`Contact.load(id).name()`); `selfIdV` is
`puppet.selfId()`. -/
structure Puppet where
  roomCreateR : List String → Option String → Except String String
  roomSearchR : RoomQueryFilter → Except String (List String)
  roomPayloadCache : String → Option RoomPayload
  roomPayloadDirtyR : String → Except String Unit
  roomPayloadR : String → Except String RoomPayload
  roomMemberListR : String → Except String (List String)
  contactReadyR : String → Except String Unit
  contactNameV : String → String
  selfIdV : String
  roomTopicR : String → String → Except String Unit
  roomAnnounceReadR : String → Except String String
  roomAnnounceWriteR : String → String → Except String Unit
  messageSendTextR : String → Option String → String → Except String Unit

/-- A contact ("member") as `say` sees it: an id plus the value its
`name()` accessor returns. -/
structure Contact where
  id : String
  nameV : String
deriving Repr, DecidableEq

/-- `true` on a resolved outcome, `false` on a rejected one. -/
def exceptIsOk {ε α : Type} : Except ε α → Bool
  | .ok _ => true
  | .error _ => false

/-- First rejection of a list of outcomes, `ok` if none
(the all-or-nothing behaviour of `Promise.all`). -/
def collectAll : List (Except String Unit) → Except String Unit
  | [] => .ok ()
  | .ok _ :: rest => collectAll rest
  | .error e :: _ => .error e

namespace Room

/-- The `payload` getter: `undefined` for an empty id, otherwise the
provider's synchronous cache read `puppet.roomPayloadCache(this.id)`. -/
def payload (p : Puppet) (roomId : String) : Option RoomPayload :=
  if roomId = "" then none
  else p.roomPayloadCache roomId

/-- `isReady()`: `!!(this.payload)`. -/
def isReady (p : Puppet) (roomId : String) : Bool :=
  (payload p roomId).isSome

/-- `Room.create(contactList, topic?)`.  `contactList = none` models a
missing (`null` / `undefined`) argument: the very first statement,
`log.verbose('Room', 'create(%s, %s)', contactList.join(','), topic)`,
eagerly evaluates `contactList.join(',')`, so a missing list throws a
TypeError right there, before the
`!contactList || !Array.isArray(contactList)` guard is ever reached —
for a `Contact[]`-typed argument that guard's
`'contactList not found'` error is unreachable.  Any present array —
including the empty one, which is truthy in JavaScript — passes the
guard, and the provider's `roomCreate` is invoked with the mapped id
list.  A provider rejection is logged and rethrown. -/
def create (p : Puppet) (contactList : Option (List Contact)) (topic : Option String) :
    Except String String × List PuppetCall :=
  match contactList with
  | none => (.error "TypeError", [])
  | some l =>
    let contactIdList := l.map Contact.id
    match p.roomCreateR contactIdList topic with
    | .ok roomId => (.ok roomId, [PuppetCall.roomCreate contactIdList topic])
    | .error e => (.error e, [PuppetCall.roomCreate contactIdList topic])

/-- `ready(dirty)`.  Returns immediately when not dirty and already
ready; otherwise (optionally) invalidates the provider cache, fetches
the payload, lists the member ids and resolves every member contact's
own readiness (`Promise.all`: every member call is issued, the first
rejection rejects the whole call). -/
def ready (p : Puppet) (roomId : String) (dirty : Bool) :
    Except String Unit × List PuppetCall :=
  if !dirty && isReady p roomId then (.ok (), [])
  else
    let dirtyTrace := if dirty then [PuppetCall.roomPayloadDirty roomId] else []
    match (if dirty then p.roomPayloadDirtyR roomId else .ok ()) with
    | .error e => (.error e, dirtyTrace)
    | .ok _ =>
      match p.roomPayloadR roomId with
      | .error e => (.error e, dirtyTrace ++ [PuppetCall.roomPayload roomId])
      | .ok _ =>
        match p.roomMemberListR roomId with
        | .error e =>
          (.error e, dirtyTrace ++ [PuppetCall.roomPayload roomId,
                                    PuppetCall.roomMemberList roomId])
        | .ok memberIdList =>
          (collectAll (memberIdList.map p.contactReadyR),
           dirtyTrace ++ [PuppetCall.roomPayload roomId,
                          PuppetCall.roomMemberList roomId]
                     ++ memberIdList.map PuppetCall.contactReady)

/-- `Room.findAll(query)`.  A falsy `query.topic` throws before the
`try` block; inside it, the provider search and the per-id `ready()`
calls run, and any rejection is caught and turned into the empty list
(fail safe).  The loaded rooms are represented by their ids. -/
def findAll (p : Puppet) (query : RoomQueryFilter) : Except String (List String) :=
  if !(TopicMatcher.truthy query.topic) then .error "topicFilter not found"
  else
    match p.roomSearchR query with
    | .error _ => .ok []
    | .ok roomIdList =>
      if roomIdList.all (fun id => exceptIsOk (ready p id false).1) then .ok roomIdList
      else .ok []

/-- The content argument of `say`: a text, a file box, or a contact
card. -/
inductive SayContent where
  | text (s : String)
  | file (f : String)
  | contact (contactId : String)
deriving Repr, DecidableEq

/-- `String.fromCharCode(8197)`, the U+2005 mention separator. -/
def AT_SEPRATOR : String :=
  (Char.ofNat 8197).toString

/-- `say(textOrContactOrFile, mention?)`.  The mention argument is the
already-normalised `[].concat(mention || [])` list.  For text with
mentions, the outgoing text is the `"@" + name` prefixes joined by
`AT_SEPRATOR`, then a space, then the original text; the reply-target
contact id is `replyToList.length && replyToList[0].id || undefined`,
so an empty first id (falsy) yields no target. -/
def say (p : Puppet) (roomId : String) (content : SayContent) (mention : List Contact) :
    Except String Unit × List PuppetCall :=
  match content with
  | .text t =>
    let text :=
      if mention.length > 0 then
        String.intercalate AT_SEPRATOR (mention.map (fun c => "@" ++ c.nameV)) ++ " " ++ t
      else t
    let contactId :=
      match mention with
      | [] => none
      | c :: _ => if c.id = "" then none else some c.id
    (p.messageSendTextR roomId contactId text,
     [PuppetCall.messageSendText roomId contactId text])
  | .file f => (.ok (), [PuppetCall.messageSendFile roomId f])
  | .contact cid => (.ok (), [PuppetCall.messageSendContact roomId cid])

/-- `topic(newTopic?)`.  The `!this.isReady()` guard throws `not ready`
before the getter/setter split.  Getter: the cached `payload.topic` when
truthy, else a default synthesised from the first three non-self member
names, comma-joined (accessing `memberList[0]` of an empty list is a
TypeError).  Setter: the provider rename with its rejection caught and
swallowed (fire and forget). -/
def topic (p : Puppet) (roomId : String) (newTopic : Option String) :
    Except String (Option String) × List PuppetCall :=
  match payload p roomId with
  | none => (.error "not ready", [])
  | some pl =>
    match newTopic with
    | none =>
      if strTruthy pl.topic then (.ok pl.topic, [])
      else
        match p.roomMemberListR roomId with
        | .error e => (.error e, [PuppetCall.roomMemberList roomId])
        | .ok memberIdList =>
          let names := (memberIdList.filter (fun id => id ≠ p.selfIdV)).map p.contactNameV
          match names with
          | [] => (.error "TypeError", [PuppetCall.roomMemberList roomId])
          | n :: rest =>
            (.ok (some (String.intercalate "," ((n :: rest).take 3))),
             [PuppetCall.roomMemberList roomId])
    | some nt =>
      match p.roomTopicR roomId nt with
      | _ => (.ok none, [PuppetCall.roomTopic roomId nt])

/-- `announce(text?)`.  `if (text)`: only a present, non-empty text is
truthy and takes the write path; an absent or empty text takes the read
path and returns the current announcement. -/
def announce (p : Puppet) (roomId : String) (text : Option String) :
    Except String (Option String) × List PuppetCall :=
  if strTruthy text then
    match text with
    | some t =>
      match p.roomAnnounceWriteR roomId t with
      | .ok _ => (.ok none, [PuppetCall.roomAnnounceWrite roomId t])
      | .error e => (.error e, [PuppetCall.roomAnnounceWrite roomId t])
    | none => (.ok none, [])
  else
    match p.roomAnnounceReadR roomId with
    | .ok s => (.ok (some s), [PuppetCall.roomAnnounceRead roomId])
    | .error e => (.error e, [PuppetCall.roomAnnounceRead roomId])

/-- The constructor error kinds of §7. -/
inductive ConstructionError where
  | directInstantiation
  | noPuppet
deriving Repr, DecidableEq

/-- A constructed room instance: the immutable id it is bound to. -/
structure RoomInst where
  id : String
deriving Repr, DecidableEq

/-- The `Room` constructor.  `isBaseClass` models
`instanceToClass(this, Room) === Room` (the construction attempt is on
the base class, not a bound subtype); `puppetAvailable` models
`!!this.puppet`. -/
def construct (isBaseClass : Bool) (puppetAvailable : Bool) (id : String) :
    Except ConstructionError RoomInst :=
  if isBaseClass then .error .directInstantiation
  else if !puppetAvailable then .error .noPuppet
  else .ok ⟨id⟩

end Room

/-- The process-wide identity pool of `Room.load`: an association list
from id to the instance reference (an allocation number standing for
object identity), plus the next fresh reference. -/
structure PoolState where
  pool : List (String × Nat)
  nextRef : Nat
deriving Repr, DecidableEq

/-- `this.pool.get(id)`. -/
def poolGet : List (String × Nat) → String → Option Nat
  | [], _ => none
  | (k, v) :: rest, id => if k = id then some v else poolGet rest id

/-- `Room.load(id)`: return the pooled instance when one exists,
otherwise construct a fresh instance, insert it and return it. -/
def Room.load (s : PoolState) (id : String) : Nat × PoolState :=
  match poolGet s.pool id with
  | some r => (r, s)
  | none => (s.nextRef, ⟨(id, s.nextRef) :: s.pool, s.nextRef + 1⟩)

/-- Well-formedness of a pool state: every pooled reference is below the
fresh counter, and no reference is shared by two ids. -/
def PoolState.WF (s : PoolState) : Prop :=
  (∀ e ∈ s.pool, e.2 < s.nextRef) ∧
  (∀ a b r, (a, r) ∈ s.pool → (b, r) ∈ s.pool → a = b)

/-- A sequence of interleaved `Room.load` calls, keeping only the pool
state they leave behind. -/
def loadMany (s : PoolState) (ids : List String) : PoolState :=
  ids.foldl (fun st i => (Room.load st i).2) s

/-
Concrete provider fixtures used by witnesses and counterexamples.
-/

/-- A well-behaved provider: one cached room `"r1"` whose payload has no
topic and five members (`"self"` being the bot itself), every operation
succeeding. -/
def basePuppet : Puppet where
  roomCreateR := fun _ _ => .ok "room-new"
  roomSearchR := fun _ => .ok ["r1"]
  roomPayloadCache := fun _ => some ⟨none, ["m1", "m2", "m3", "m4", "self"], none, none⟩
  roomPayloadDirtyR := fun _ => .ok ()
  roomPayloadR := fun _ => .ok ⟨none, ["m1", "m2", "m3", "m4", "self"], none, none⟩
  roomMemberListR := fun _ => .ok ["m1", "m2", "m3", "m4", "self"]
  contactReadyR := fun _ => .ok ()
  contactNameV := fun id =>
    if id = "m1" then "Alice"
    else if id = "m2" then "Bob"
    else if id = "m3" then "Carol"
    else if id = "m4" then "Dave"
    else "Self"
  selfIdV := "self"
  roomTopicR := fun _ _ => .ok ()
  roomAnnounceReadR := fun _ => .ok "the announcement"
  roomAnnounceWriteR := fun _ _ => .ok ()
  messageSendTextR := fun _ _ _ => .ok ()

/-- `basePuppet` with an empty payload cache: no room is ready. -/
def notReadyPuppet : Puppet :=
  { basePuppet with roomPayloadCache := fun _ => none }

/-- `basePuppet` whose topic rename always rejects. -/
def failTopicPuppet : Puppet :=
  { basePuppet with roomTopicR := fun _ _ => .error "rename failed" }

/-
Theorems, one per claim of the specification (plus shared helper
lemmas and per-claim witnesses / counterexamples).
-/

/-- C9: constructing the base entity type (`Room`) directly raises a
construction error, and constructing without an available provider also
raises a construction error. -/
theorem construct_guard :
    (∀ (puppetAvailable : Bool) (id : String),
        Room.construct true puppetAvailable id =
          .error Room.ConstructionError.directInstantiation) ∧
    (∀ id : String,
        Room.construct false false id = .error Room.ConstructionError.noPuppet) := by
  constructor
  · intro puppetAvailable id
    rfl
  · intro id
    rfl

/-- C10: `announce("")` behaves exactly as the getter — it issues the
provider announcement read, never the write — and only a non-empty text
issues the write. -/
theorem announce_empty_is_getter (p : Puppet) (roomId : String) :
    Room.announce p roomId (some "") = Room.announce p roomId none ∧
    (Room.announce p roomId (some "")).2 = [PuppetCall.roomAnnounceRead roomId] ∧
    (∀ t : String, t ≠ "" →
        (Room.announce p roomId (some t)).2 = [PuppetCall.roomAnnounceWrite roomId t]) := by
  refine ⟨?_, ?_, ?_⟩
  · simp [Room.announce, strTruthy]
  · cases h : p.roomAnnounceReadR roomId <;> simp [Room.announce, strTruthy, h]
  · intro t ht
    cases h : p.roomAnnounceWriteR roomId t <;> simp [Room.announce, strTruthy, ht, h]

/-- Witness for C10 at a concrete provider and texts. -/
theorem announce_empty_is_getter_witness :
    Room.announce basePuppet "r1" (some "") = Room.announce basePuppet "r1" none ∧
    (Room.announce basePuppet "r1" (some "hello")).2 =
      [PuppetCall.roomAnnounceWrite "r1" "hello"] :=
  ⟨(announce_empty_is_getter basePuppet "r1").1,
   (announce_empty_is_getter basePuppet "r1").2.2 "hello" (by decide)⟩

/-- C2 counterexample: `create` with an *empty* member array passes the
`!contactList || !Array.isArray(contactList)` guard (an empty array is
truthy), so the provider's create-room call *is* invoked, on the empty
id list, and no `InvalidArgument` is raised. -/
theorem create_empty_list_reaches_provider :
    (Room.create basePuppet (some []) (some "ding")).2 =
      [PuppetCall.roomCreate [] (some "ding")] ∧
    (Room.create basePuppet (some []) (some "ding")).1 = .ok "room-new" := by
  exact ⟨rfl, rfl⟩

/-- C2 amended: `create` never raises `InvalidArgument` on an empty
member list — any present array, the empty one included, is mapped to
its id list and handed to the provider's create-room call; a missing
(`null`/`undefined`) member list fails before any provider call, but
with a TypeError thrown while logging (`contactList.join`), not with
the guard's `InvalidArgument`. -/
theorem create_missing_list_type_error (p : Puppet) (topic : Option String)
    (l : List Contact) :
    Room.create p none topic = (.error "TypeError", []) ∧
    (Room.create p (some l) topic).2 = [PuppetCall.roomCreate (l.map Contact.id) topic] := by
  constructor
  · rfl
  · simp only [Room.create]
    cases p.roomCreateR (l.map Contact.id) topic <;> rfl

/-- C8: with the room ready, a failing provider rename is swallowed by
the topic setter: the call still resolves (no error propagates) and the
only provider call made is the rename itself. -/
theorem topic_setter_swallows_rename_error (p : Puppet) (roomId nt e : String)
    (hready : Room.isReady p roomId = true)
    (_hfail : p.roomTopicR roomId nt = .error e) :
    Room.topic p roomId (some nt) = (.ok none, [PuppetCall.roomTopic roomId nt]) := by
  simp only [Room.isReady, Option.isSome_iff_exists] at hready
  obtain ⟨pl, hpl⟩ := hready
  simp only [Room.topic, hpl]

/-- Witness for C8 at a provider whose rename rejects. -/
theorem topic_setter_swallows_rename_error_witness :
    Room.isReady failTopicPuppet "r1" = true ∧
    failTopicPuppet.roomTopicR "r1" "new topic" = .error "rename failed" ∧
    Room.topic failTopicPuppet "r1" (some "new topic") =
      (.ok none, [PuppetCall.roomTopic "r1" "new topic"]) :=
  ⟨by decide, rfl,
   topic_setter_swallows_rename_error failTopicPuppet "r1" "new topic" "rename failed"
     (by decide) rfl⟩

/-- C6: `say` of a text with a non-empty mention list sends the
`"@" + name` prefixes joined by the U+2005 separator, then a separator,
then the original text, routed to this room with the first mentioned
member's id as the reply target; with no mention the text goes out
unchanged with no reply target. -/
theorem say_text_mentions (p : Puppet) (roomId t : String) (c0 : Contact)
    (rest : List Contact) (hid : c0.id ≠ "") :
    (Room.say p roomId (.text t) (c0 :: rest)).2 =
      [PuppetCall.messageSendText roomId (some c0.id)
        (String.intercalate Room.AT_SEPRATOR
            ((c0 :: rest).map (fun c => "@" ++ c.nameV)) ++ " " ++ t)] ∧
    (Room.say p roomId (.text t) []).2 = [PuppetCall.messageSendText roomId none t] := by
  constructor
  · simp [Room.say, hid]
  · simp [Room.say]

/-- Witness for C6 at one mentioned member and the text `"hi"`. -/
theorem say_text_mentions_witness :
    (Room.say basePuppet "r1" (.text "hi") [{ id := "id-x", nameV := "MemberX" }]).2 =
      [PuppetCall.messageSendText "r1" (some "id-x")
        (String.intercalate Room.AT_SEPRATOR
            (([{ id := "id-x", nameV := "MemberX" }] : List Contact).map
              (fun c => "@" ++ c.nameV)) ++ " " ++ "hi")] ∧
    (Room.say basePuppet "r1" (.text "hi") []).2 =
      [PuppetCall.messageSendText "r1" none "hi"] :=
  say_text_mentions basePuppet "r1" "hi" { id := "id-x", nameV := "MemberX" } [] (by decide)

/-- C3 counterexample: with no payload cached, the *getter* form
`topic()` is rejected by the unconditional `!this.isReady()` guard — it
throws `not ready` instead of synthesizing a default, so the readiness
precondition is not limited to the setter form. -/
theorem topic_getter_not_ready_counterexample :
    Room.isReady notReadyPuppet "r1" = false ∧
    Room.topic notReadyPuppet "r1" none = (.error "not ready", []) := by
  exact ⟨rfl, rfl⟩

/-- C3 amended: the readiness precondition applies to *both* forms of
`topic`: before payload readiness is established, the getter and the
setter alike raise `not ready` without any provider call. -/
theorem topic_requires_ready_both_forms (p : Puppet) (roomId : String)
    (newTopic : Option String) (h : Room.isReady p roomId = false) :
    Room.topic p roomId newTopic = (.error "not ready", []) := by
  cases hp : Room.payload p roomId with
  | none => simp only [Room.topic, hp]
  | some pl =>
    rw [Room.isReady, hp] at h
    simp at h

/-- Witness for the amended C3 at a provider with an empty payload
cache, in both the getter and the setter form. -/
theorem topic_requires_ready_both_forms_witness :
    Room.isReady notReadyPuppet "r2" = false ∧
    Room.topic notReadyPuppet "r2" (some "new topic") = (.error "not ready", []) :=
  ⟨by decide,
   topic_requires_ready_both_forms notReadyPuppet "r2" (some "new topic") (by decide)⟩

/-- C4: when the cached payload has no (truthy) topic, the getter
synthesizes the default topic from the first at-most-three non-self
member names, comma-joined. -/
theorem topic_default_synthesis (p : Puppet) (roomId : String) (pl : RoomPayload)
    (hpl : Room.payload p roomId = some pl) (htop : strTruthy pl.topic = false)
    (ids : List String) (hml : p.roomMemberListR roomId = .ok ids)
    (n : String) (rest : List String)
    (hnames : (ids.filter (fun id => id ≠ p.selfIdV)).map p.contactNameV = n :: rest) :
    (Room.topic p roomId none).1 =
      .ok (some (String.intercalate "," ((n :: rest).take 3))) := by
  simp only [ne_eq, decide_not] at hnames
  simp [Room.topic, hpl, htop, hml, hnames]

/-- Witness for C4: members named Alice, Bob, Carol, Dave (self
excluded) yield the default topic `"Alice,Bob,Carol"`. -/
theorem topic_default_synthesis_witness :
    (Room.topic basePuppet "r1" none).1 = .ok (some "Alice,Bob,Carol") :=
  (topic_default_synthesis basePuppet "r1"
      { topic := none, memberIdList := ["m1", "m2", "m3", "m4", "self"],
        ownerId := none, announcement := none }
      rfl rfl ["m1", "m2", "m3", "m4", "self"] rfl
      "Alice" ["Bob", "Carol", "Dave"] (by decide)).trans rfl

/-- C5: with a (truthy) topic matcher present, `findAll` never
propagates a provider failure: a rejected search, or any rejected
per-id `ready()`, yields the empty list, and when everything resolves
it returns exactly the ids the provider search produced (each loaded
and made ready). -/
theorem findAll_fail_safe (p : Puppet) (query : RoomQueryFilter)
    (hq : TopicMatcher.truthy query.topic = true) :
    (∃ l, Room.findAll p query = .ok l) ∧
    (∀ e, p.roomSearchR query = .error e → Room.findAll p query = .ok []) ∧
    (∀ roomIdList, p.roomSearchR query = .ok roomIdList →
      ((∀ id ∈ roomIdList, exceptIsOk (Room.ready p id false).1 = true) →
          Room.findAll p query = .ok roomIdList) ∧
      ((∃ id ∈ roomIdList, exceptIsOk (Room.ready p id false).1 = false) →
          Room.findAll p query = .ok [])) := by
  refine ⟨?_, ?_, ?_⟩
  · cases hs : p.roomSearchR query with
    | error e => exact ⟨[], by simp [Room.findAll, hq, hs]⟩
    | ok roomIdList =>
      cases hall : roomIdList.all (fun id => exceptIsOk (Room.ready p id false).1) with
      | false => exact ⟨[], by simp [Room.findAll, hq, hs, hall]⟩
      | true => exact ⟨roomIdList, by simp [Room.findAll, hq, hs, hall]⟩
  · intro e hs
    simp [Room.findAll, hq, hs]
  · intro roomIdList hs
    constructor
    · intro hall
      have h : roomIdList.all (fun id => exceptIsOk (Room.ready p id false).1) = true :=
        List.all_eq_true.mpr hall
      simp [Room.findAll, hq, hs, h]
    · rintro ⟨id, hid, hfalse⟩
      cases hall : roomIdList.all (fun id => exceptIsOk (Room.ready p id false).1) with
      | false => simp [Room.findAll, hq, hs, hall]
      | true =>
        have := List.all_eq_true.mp hall id hid
        rw [hfalse] at this
        exact absurd this (by simp)

/-- Witness for C5 at a concrete provider whose search finds `"r1"`,
already ready: the result is exactly `["r1"]`. -/
theorem findAll_fail_safe_witness :
    TopicMatcher.truthy (RoomQueryFilter.mk (some (.ofString "wechaty"))).topic = true ∧
    Room.findAll basePuppet ⟨some (.ofString "wechaty")⟩ = .ok ["r1"] :=
  ⟨by decide,
   ((findAll_fail_safe basePuppet ⟨some (.ofString "wechaty")⟩ (by decide)).2.2
       ["r1"] rfl).1 (by decide)⟩

/-- C7: `ready(false)` on an already-ready room is a no-op — it returns
resolved with an empty provider trace; the payload fetch and the member
readiness fan-out are issued only when the room is not ready or the
call is dirty, and a dirty call issues the provider-side invalidation
first. -/
theorem ready_noop_when_ready (p : Puppet) (roomId : String)
    (h : Room.isReady p roomId = true) :
    Room.ready p roomId false = (.ok (), []) ∧
    (∀ (dirty : Bool) (cid : String),
        (PuppetCall.roomPayload roomId ∈ (Room.ready p roomId dirty).2 ∨
         PuppetCall.contactReady cid ∈ (Room.ready p roomId dirty).2) →
        Room.isReady p roomId = false ∨ dirty = true) ∧
    ((Room.ready p roomId true).2).head? = some (PuppetCall.roomPayloadDirty roomId) := by
  refine ⟨by simp [Room.ready, h], ?_, ?_⟩
  · intro dirty cid hmem
    cases dirty with
    | true => exact Or.inr rfl
    | false =>
      cases hr : Room.isReady p roomId with
      | false => exact Or.inl rfl
      | true =>
        rw [show Room.ready p roomId false = (.ok (), []) from by simp [Room.ready, hr]]
          at hmem
        simp at hmem
  · cases h1 : p.roomPayloadDirtyR roomId with
    | error e => simp [Room.ready, h1]
    | ok u =>
      cases h2 : p.roomPayloadR roomId with
      | error e => simp [Room.ready, h1, h2]
      | ok pl =>
        cases h3 : p.roomMemberListR roomId with
        | error e => simp [Room.ready, h1, h2, h3]
        | ok memberIdList => simp [Room.ready, h1, h2, h3]

/-- Witness for C7 at a provider whose cache already holds `"r1"`. -/
theorem ready_noop_when_ready_witness :
    Room.isReady basePuppet "r1" = true ∧
    Room.ready basePuppet "r1" false = (.ok (), []) :=
  ⟨by decide, (ready_noop_when_ready basePuppet "r1" (by decide)).1⟩

/-- A pooled binding found by `poolGet` is an entry of the pool. -/
theorem poolGet_mem {l : List (String × Nat)} {id : String} {r : Nat}
    (h : poolGet l id = some r) : (id, r) ∈ l := by
  induction l with
  | nil => simp [poolGet] at h
  | cons e rest ih =>
    obtain ⟨k, v⟩ := e
    by_cases hk : k = id
    · subst hk
      simp [poolGet] at h
      subst h
      exact List.mem_cons_self _ _
    · rw [poolGet, if_neg hk] at h
      exact List.mem_cons_of_mem _ (ih h)

/-- Unfolding of `load` on a pooled id. -/
theorem load_eq_of_get_some {s : PoolState} {id : String} {r : Nat}
    (h : poolGet s.pool id = some r) : Room.load s id = (r, s) := by
  simp [Room.load, h]

/-- Unfolding of `load` on an unpooled id. -/
theorem load_eq_of_get_none {s : PoolState} {id : String}
    (h : poolGet s.pool id = none) :
    Room.load s id = (s.nextRef, ⟨(id, s.nextRef) :: s.pool, s.nextRef + 1⟩) := by
  simp [Room.load, h]

/-- `load` never disturbs an existing pool binding. -/
theorem load_preserves_binding {s : PoolState} {id : String} {r : Nat}
    (h : poolGet s.pool id = some r) (i : String) :
    poolGet (Room.load s i).2.pool id = some r := by
  cases hi : poolGet s.pool i with
  | some ri => rw [load_eq_of_get_some hi]; exact h
  | none =>
    have hne : i ≠ id := by
      intro he
      subst he
      rw [h] at hi
      cases hi
    rw [load_eq_of_get_none hi]
    show poolGet ((i, s.nextRef) :: s.pool) id = some r
    rw [poolGet, if_neg hne]
    exact h

/-- A pool binding survives any sequence of interleaved `load` calls. -/
theorem loadMany_preserves_binding {s : PoolState} {id : String} {r : Nat}
    (h : poolGet s.pool id = some r) (ids : List String) :
    poolGet (loadMany s ids).pool id = some r := by
  induction ids generalizing s with
  | nil => exact h
  | cons i rest ih => exact ih (load_preserves_binding h i)

/-- After `load s id`, the pool binds `id` to the returned instance. -/
theorem load_binding_self (s : PoolState) (id : String) :
    poolGet (Room.load s id).2.pool id = some (Room.load s id).1 := by
  cases h : poolGet s.pool id with
  | some r => rw [load_eq_of_get_some h]; exact h
  | none =>
    rw [load_eq_of_get_none h]
    show poolGet ((id, s.nextRef) :: s.pool) id = some s.nextRef
    rw [poolGet, if_pos rfl]

/-- `load` preserves pool well-formedness. -/
theorem load_WF {s : PoolState} (hwf : s.WF) (i : String) : (Room.load s i).2.WF := by
  obtain ⟨hbound, hinj⟩ := hwf
  cases hi : poolGet s.pool i with
  | some ri =>
    rw [load_eq_of_get_some hi]
    exact ⟨hbound, hinj⟩
  | none =>
    rw [load_eq_of_get_none hi]
    constructor
    · intro e he
      rcases List.mem_cons.mp he with he | he
      · rw [he]
        exact Nat.lt_succ_self _
      · exact Nat.lt_succ_of_lt (hbound e he)
    · intro a b r ha hb
      rcases List.mem_cons.mp ha with ha | ha <;> rcases List.mem_cons.mp hb with hb | hb
      · rw [Prod.mk.injEq] at ha hb
        rw [ha.1, hb.1]
      · rw [Prod.mk.injEq] at ha
        have hlt : r < s.nextRef := hbound (b, r) hb
        rw [ha.2] at hlt
        exact absurd hlt (Nat.lt_irrefl _)
      · rw [Prod.mk.injEq] at hb
        have hlt : r < s.nextRef := hbound (a, r) ha
        rw [hb.2] at hlt
        exact absurd hlt (Nat.lt_irrefl _)
      · exact hinj a b r ha hb

/-- Any sequence of `load` calls preserves pool well-formedness. -/
theorem loadMany_WF {s : PoolState} (hwf : s.WF) (ids : List String) :
    (loadMany s ids).WF := by
  induction ids generalizing s with
  | nil => exact hwf
  | cons i rest ih => exact ih (load_WF hwf i)

/-- C1: from a well-formed pool, a `load` of `id1` and a later `load`
of `id2` — with any other loads in between — return the same instance
exactly when `id1 = id2` and distinct instances when `id1 ≠ id2`; and
`load` inserts a freshly constructed instance into the pool exactly
when no instance for that id exists yet (an existing id leaves the pool
untouched and returns its pooled instance). -/
theorem load_identity (s : PoolState) (hwf : s.WF) (id1 id2 : String)
    (ids : List String) :
    ((id1 = id2 →
        (Room.load (loadMany (Room.load s id1).2 ids) id2).1 = (Room.load s id1).1) ∧
     (id1 ≠ id2 →
        (Room.load (loadMany (Room.load s id1).2 ids) id2).1 ≠ (Room.load s id1).1)) ∧
    (poolGet s.pool id1 = none →
        (Room.load s id1).2.pool = (id1, s.nextRef) :: s.pool) ∧
    (∀ r, poolGet s.pool id1 = some r → Room.load s id1 = (r, s)) := by
  have hb1 : poolGet (loadMany (Room.load s id1).2 ids).pool id1 =
      some (Room.load s id1).1 :=
    loadMany_preserves_binding (load_binding_self s id1) ids
  obtain ⟨hboundt, hinjt⟩ := loadMany_WF (load_WF hwf id1) ids
  refine ⟨⟨?_, ?_⟩, ?_, ?_⟩
  · intro he
    subst he
    rw [load_eq_of_get_some hb1]
  · intro hne
    cases h2 : poolGet (loadMany (Room.load s id1).2 ids).pool id2 with
    | some r2 =>
      rw [load_eq_of_get_some h2]
      show r2 ≠ (Room.load s id1).1
      intro hrr
      have hm1 : (id1, (Room.load s id1).1) ∈ (loadMany (Room.load s id1).2 ids).pool :=
        poolGet_mem hb1
      rw [← hrr] at hm1
      exact hne (hinjt id1 id2 r2 hm1 (poolGet_mem h2))
    | none =>
      rw [load_eq_of_get_none h2]
      show (loadMany (Room.load s id1).2 ids).nextRef ≠ (Room.load s id1).1
      exact Nat.ne_of_gt (hboundt (id1, (Room.load s id1).1) (poolGet_mem hb1))
  · intro hnone
    rw [load_eq_of_get_none hnone]
  · intro r hr
    exact load_eq_of_get_some hr

/-- Witness for C1: loading `"a"`, then `"c"`, then `"b"` from the empty
pool gives `"a"` and `"b"` distinct instances. -/
theorem load_identity_witness :
    PoolState.WF ⟨[], 0⟩ ∧
    (Room.load (loadMany (Room.load ⟨[], 0⟩ "a").2 ["c"]) "b").1 ≠
      (Room.load ⟨[], 0⟩ "a").1 :=
  ⟨by simp [PoolState.WF],
   ((load_identity ⟨[], 0⟩ (by simp [PoolState.WF]) "a" "b" ["c"]).1).2 (by decide)⟩

end Wechaty
